import Mathlib

/-!
Verification of the node-compression-benchmark scripts.

The repository contains two JavaScript scripts: the current variant
(`src/unnamed/part_000`) that resolves input artifacts through ordered
candidate lists, and a superseded variant (`src/scripts/benchmark.js`)
with hard-coded relative paths. Both sweep three compression algorithms
over every declared level of every input file, record size / ratio /
timing measurements, render a chart per file and emit a Markdown report.

External capabilities (filesystem existence checks, file reads, the
package-resolution mechanism, the chart renderer, the wall-clock timer,
floating-point number formatting and the slugifier) are modelled as
explicit parameters bundled in an `Env` record; byte buffers are lists
of naturals; JavaScript numbers used for ratios and durations are
modelled as rationals.
-/

/-- A byte buffer (`Buffer` in Node) modelled as its byte list. -/
abbrev ByteBuf := List Nat

/-- One entry of the algorithm registry (`algorithms` array in both
scripts): a name, the declared list of levels, and the compression
primitive.  The primitive itself (`zlib.gzipSync` etc.) is external and
is supplied as a function parameter when the registry is built. -/
structure Algorithm where
  name : String
  levels : List Int
  compress : ByteBuf → Int → ByteBuf

/-- `Array.from({ length: n }, (_, index) => f index)` from the scripts. -/
def arrayFrom (n : Nat) (f : Nat → Int) : List Int :=
  (List.range n).map f

/-- The algorithm registry, translated from `part_000` lines 144-174:
gzip with levels 1..9, brotli with levels 0..11, zstd with levels 1..22.
The three zlib primitives are passed in as the external capabilities
they are. -/
def algorithms (gzipSync brotliSync zstdSync : ByteBuf → Int → ByteBuf) :
    List Algorithm :=
  [ { name := "gzip"
      levels := arrayFrom 9 (fun index => (index : Int) + 1)
      compress := fun buffer level => gzipSync buffer level },
    { name := "brotli"
      levels := arrayFrom 12 (fun index => (index : Int))
      compress := fun buffer level => brotliSync buffer level },
    { name := "zstd"
      levels := arrayFrom 22 (fun index => (index : Int) + 1)
      compress := fun buffer level => zstdSync buffer level } ]

/-- One measurement of the sweep (`measurements.push({...})`,
`part_000` lines 291-296).  `time` is the wall-clock duration of the
single compress call; the timer is external and supplied as a clock
function. -/
structure Measurement where
  level : Int
  time : ℚ
  size : Nat
  ratio : ℚ
  deriving DecidableEq

/-- Per-(artifact, algorithm) group of measurements
(`algorithmResults.push({ name, measurements })`, `part_000`
lines 299-302). -/
structure AlgorithmResult where
  name : String
  measurements : List Measurement
  deriving DecidableEq

/-- The wall-clock timer: the elapsed duration observed around the
compress call for a given (algorithm name, level).  `performance.now()`
is external, so the duration is an arbitrary function of the call site. -/
abbrev Clock := String → Int → ℚ

/-- Inner level loop of the sweep (`part_000` lines 282-297): one
measurement per declared level, in declared order;
`ratio = compressedSize / originalSize` where `originalSize` is the
original uncompressed byte length passed in from the per-artifact
capture. -/
def sweepAlgorithm (clock : Clock) (originalBuffer : ByteBuf)
    (originalSize : Nat) (algorithm : Algorithm) : List Measurement :=
  algorithm.levels.map (fun level =>
    let compressed := algorithm.compress originalBuffer level
    let compressedSize := compressed.length
    let durationMs := clock algorithm.name level
    let ratio : ℚ := (compressedSize : ℚ) / (originalSize : ℚ)
    { level := level, time := durationMs, size := compressedSize, ratio := ratio })

/-- The sweep over one artifact (`part_000` lines 270-309): the original
size is captured once from the original buffer, then every algorithm of
the registry is swept in registry order. -/
def sweepAll (clock : Clock) (originalBuffer : ByteBuf)
    (registry : List Algorithm) : List AlgorithmResult :=
  let originalSize := originalBuffer.length
  registry.map (fun algorithm =>
    { name := algorithm.name
      measurements := sweepAlgorithm clock originalBuffer originalSize algorithm })

/-! ## Artifact resolution (`part_000` lines 15-62) -/

/-- One candidate location inside the owning package
(`{ pathSegments, displayName }`). -/
structure Candidate where
  pathSegments : List String
  displayName : Option String
  deriving DecidableEq

/-- An artifact specification as passed to `createPackageFile`
(`part_000` lines 23-29): `pathSegments`/`displayName` are used to build
the single default candidate when no `candidates` list is given. -/
structure PackageFileSpec where
  id : String
  displayName : Option String
  packageName : String
  pathSegments : List String
  candidates : Option (List Candidate)
  deriving DecidableEq

/-- A resolved artifact (`part_000` lines 46-51). -/
structure ResolvedFile where
  id : String
  displayName : String
  absolutePath : String
  relativePath : String
  deriving DecidableEq

/-- `path.join` over already-clean segments: the segments concatenated
with the separator. -/
def pathJoin (segments : List String) : String :=
  String.intercalate "/" segments

/-- `resolvePackageFile` (`part_000` lines 15-21): the package
installation root comes from the host package-resolution mechanism
(`require.resolve`), supplied as the external `packageRoot` function;
the candidate's segments are joined under it. -/
def resolvePackageFile (packageRoot : String → String) (packageName : String)
    (pathSegments : List String) : String :=
  pathJoin (packageRoot packageName :: pathSegments)

/-- The declarative chart description handed to the external renderer
(`generateChart`, `part_000` lines 200-257): one labelled data series
per algorithm, each an ordered list of (x = level, y = ratio) points,
plus the title derived from the display name.  Only these fields of the
configuration depend on the file result; the rest is static styling. -/
structure ChartConfig where
  datasets : List (String × List (Int × ℚ))
  title : String
  deriving DecidableEq

/-- The external capabilities of the scripts, passed explicitly. -/
structure Env where
  fsExists : String → Bool
  readFile : String → ByteBuf
  packageRoot : String → String
  pathRelative : String → String → String
  clock : Clock
  renderBuffer : ChartConfig → Except String String
  fmt : ℚ → Nat → String
  slug : String → String
  timestamp : String
  repoRoot : String

/-- The candidate list actually tried (`part_000` lines 30-41): the
declared candidates, or the single default candidate built from the
spec's own `pathSegments`/`displayName`; each candidate's display name
defaults to `packageName/seg0/…/segN`. -/
def candidateList (spec : PackageFileSpec) : List Candidate :=
  (spec.candidates.getD [{ pathSegments := spec.pathSegments, displayName := spec.displayName }]).map
    (fun candidate =>
      { candidate with
        displayName := some (candidate.displayName.getD
          (spec.packageName ++ "/" ++ String.intercalate "/" candidate.pathSegments)) })

/-- The candidate loop of `createPackageFile` (`part_000` lines 43-53):
return the first candidate whose absolute path exists. -/
def findFirstExisting (env : Env) (spec : PackageFileSpec) :
    List Candidate → Option ResolvedFile
  | [] => none
  | candidate :: rest =>
    let absolutePath :=
      resolvePackageFile env.packageRoot spec.packageName candidate.pathSegments
    if env.fsExists absolutePath then
      some { id := spec.id
             displayName := candidate.displayName.getD ""
             absolutePath := absolutePath
             relativePath := env.pathRelative env.repoRoot absolutePath }
    else
      findFirstExisting env spec rest

/-- `createPackageFile` (`part_000` lines 23-62): resolve through the
candidate list, or fail with a message naming every attempted path. -/
def createPackageFile (env : Env) (spec : PackageFileSpec) :
    Except String ResolvedFile :=
  match findFirstExisting env spec (candidateList spec) with
  | some resolved => Except.ok resolved
  | none =>
    let attempted := (candidateList spec).map
      (fun candidate => pathJoin (spec.packageName :: candidate.pathSegments))
    Except.error ("Required file not found for " ++ spec.packageName ++
      ". Tried: " ++ String.intercalate ", " attempted)

/-! ## Driver (`main`, `part_000` lines 259-373) -/

/-- The per-artifact result assembled by the driver
(`part_000` lines 311-316). -/
structure FileResult where
  id : String
  displayName : String
  originalSize : Nat
  algorithms : List AlgorithmResult
  deriving DecidableEq

/-- A file result together with the relative path of its chart
(`results.push({ ...fileResult, chartPath })`, `part_000` line 336). -/
structure FileResultR extends FileResult where
  chartPath : String
  deriving DecidableEq

/-- `generateChart` (`part_000` lines 200-257): build the chart
configuration from the file result — labels are the upper-cased
algorithm names, points are the (level, ratio) pairs of each
measurement, the title appends " Compression Ratio" to the display
name — and hand it to the external renderer. -/
def generateChart (env : Env) (fileResult : FileResult) : Except String String :=
  env.renderBuffer
    { datasets := fileResult.algorithms.map (fun algorithm =>
        (algorithm.name.toUpper,
         algorithm.measurements.map (fun m => (m.level, m.ratio))))
      title := fileResult.displayName ++ " Compression Ratio" }

/-- The charts directory (`part_000` line 12). -/
def chartsDir (repoRoot : String) : String :=
  repoRoot ++ "/charts"

/-- The file result built for one artifact inside the loop body
(`part_000` lines 270-316), before chart rendering. -/
def mkFileResult (env : Env) (registry : List Algorithm)
    (file : ResolvedFile) : FileResult :=
  let originalBuffer := env.readFile file.absolutePath
  let originalSize := originalBuffer.length
  { id := file.id
    displayName := file.displayName
    originalSize := originalSize
    algorithms := sweepAll env.clock originalBuffer registry }

/-- One iteration of the driver loop (`part_000` lines 266-337):
check the resolved path still exists (`ensureFile`), read the bytes,
sweep, render the chart (a render failure is rethrown and so
propagates), and produce the result together with the chart file
write. -/
def processFile (env : Env) (registry : List Algorithm)
    (file : ResolvedFile) : Except String (FileResultR × (String × String)) :=
  if env.fsExists file.absolutePath then
    let fileResult := mkFileResult env registry file
    match generateChart env fileResult with
    | Except.error e => Except.error e
    | Except.ok chartSvg =>
      let chartPath := chartsDir env.repoRoot ++ "/" ++
        env.slug fileResult.displayName ++ ".svg"
      Except.ok
        ({ toFileResult := fileResult
           chartPath := env.pathRelative env.repoRoot chartPath },
         (chartPath, chartSvg))
  else
    Except.error ("Required file not found: " ++ file.absolutePath)

/-- The driver loop over all resolved files, in declaration order; any
failure aborts the remainder of the loop (`part_000` lines 266-337). -/
def runFiles (env : Env) (registry : List Algorithm) :
    List ResolvedFile → Except String (List FileResultR × List (String × String))
  | [] => Except.ok ([], [])
  | file :: rest =>
    match processFile env registry file with
    | Except.error e => Except.error e
    | Except.ok (result, write) =>
      match runFiles env registry rest with
      | Except.error e => Except.error e
      | Except.ok (results, writes) =>
        Except.ok (result :: results, write :: writes)

/-- The fixed lines of one report section for one file result
(`part_000` lines 347-365). -/
def sectionLines (fmt : ℚ → Nat → String) (result : FileResultR) : List String :=
  [ "## " ++ result.displayName,
    "",
    "- Original size: " ++ toString result.originalSize ++ " bytes",
    "- Chart: ![Compression ratio chart for " ++ result.displayName ++ "](" ++
      result.chartPath ++ ")",
    "",
    "| Algorithm | Level | Time (ms) | Size (bytes) | Compression Ratio |",
    "| --- | --- | --- | --- | --- |" ] ++
  result.algorithms.flatMap (fun algorithm =>
    algorithm.measurements.map (fun measurement =>
      "| " ++ algorithm.name ++ " | " ++ toString measurement.level ++ " | " ++
      fmt measurement.time 3 ++ " | " ++ toString measurement.size ++ " | " ++
      fmt measurement.ratio 4 ++ " |")) ++
  [""]

/-- The README lines assembled by the report writer
(`part_000` lines 339-365): the fixed header followed by one section
per file result, in order. -/
def readmeLines (fmt : ℚ → Nat → String) (timestamp : String)
    (results : List FileResultR) : List String :=
  [ "# Node Compression Benchmark",
    "",
    "Last updated: " ++ timestamp,
    "",
    "This benchmark measures compression time, output size, and compression ratios for several popular npm packages across all gzip, Brotli, and Zstandard compression levels.",
    "" ] ++
  results.flatMap (sectionLines fmt)

/-- The observable output of a successful run: the chart files written
and the README written at the end (`part_000` lines 330 and 367). -/
structure ProgramOutput where
  results : List FileResultR
  chartWrites : List (String × String)
  readme : List String
  deriving DecidableEq

/-- `main` over already-resolved files (`part_000` lines 259-368):
process every file in declaration order, then emit the report.  Any
error propagates and no report is produced. -/
def runMain (env : Env) (registry : List Algorithm)
    (files : List ResolvedFile) : Except String ProgramOutput :=
  match runFiles env registry files with
  | Except.error e => Except.error e
  | Except.ok (results, writes) =>
    Except.ok
      { results := results
        chartWrites := writes
        readme := readmeLines env.fmt env.timestamp results }

/-- Resolution of the whole artifact list (`part_000` lines 64-142):
the `files` constant is built at module load, so the first failing
`createPackageFile` aborts before `main` ever runs. -/
def resolveFiles (env : Env) : List PackageFileSpec → Except String (List ResolvedFile)
  | [] => Except.ok []
  | spec :: rest =>
    match createPackageFile env spec with
    | Except.error e => Except.error e
    | Except.ok file =>
      match resolveFiles env rest with
      | Except.error e => Except.error e
      | Except.ok files => Except.ok (file :: files)

/-- The whole program: module-load resolution followed by `main`. -/
def runProgram (env : Env) (registry : List Algorithm)
    (specs : List PackageFileSpec) : Except String ProgramOutput :=
  match resolveFiles env specs with
  | Except.error e => Except.error e
  | Except.ok files => runMain env registry files

/-- The process exit contract (`main().catch`, `part_000`
lines 370-373): success exits normally, any propagated error sets
`process.exitCode = 1`. -/
def exitCode (result : Except String ProgramOutput) : Nat :=
  match result with
  | Except.ok _ => 0
  | Except.error _ => 1

/-! ## The superseded script variant (`src/scripts/benchmark.js`)

The older script hard-codes each artifact's relative path instead of
resolving candidates, but carries its own copy of the registry and of
the sweep loop (lines 63-93 and 196-228 of `benchmark.js`).  Those
copies are translated here independently so that the two engines can be
compared. -/

namespace Legacy

/-- A file entry of the superseded variant (`benchmark.js` lines 15-61):
a static relative path, no candidate search. -/
structure FileSpec where
  id : String
  displayName : String
  relativePath : String
  deriving DecidableEq

/-- The registry of the superseded variant (`benchmark.js`
lines 63-93). -/
def algorithmsLegacy (gzipSync brotliSync zstdSync : ByteBuf → Int → ByteBuf) :
    List Algorithm :=
  [ { name := "gzip"
      levels := arrayFrom 9 (fun index => (index : Int) + 1)
      compress := fun buffer level => gzipSync buffer level },
    { name := "brotli"
      levels := arrayFrom 12 (fun index => (index : Int))
      compress := fun buffer level => brotliSync buffer level },
    { name := "zstd"
      levels := arrayFrom 22 (fun index => (index : Int) + 1)
      compress := fun buffer level => zstdSync buffer level } ]

/-- The inner level loop of the superseded variant (`benchmark.js`
lines 201-216). -/
def sweepAlgorithmLegacy (clock : Clock) (originalBuffer : ByteBuf)
    (originalSize : Nat) (algorithm : Algorithm) : List Measurement :=
  algorithm.levels.map (fun level =>
    let compressed := algorithm.compress originalBuffer level
    let compressedSize := compressed.length
    let durationMs := clock algorithm.name level
    let ratio : ℚ := (compressedSize : ℚ) / (originalSize : ℚ)
    { level := level, time := durationMs, size := compressedSize, ratio := ratio })

/-- The algorithm loop of the superseded variant (`benchmark.js`
lines 189-228): the original size is captured once per file, then each
registry entry is swept in order. -/
def sweepAllLegacy (clock : Clock) (originalBuffer : ByteBuf)
    (registry : List Algorithm) : List AlgorithmResult :=
  let originalSize := originalBuffer.length
  registry.map (fun algorithm =>
    { name := algorithm.name
      measurements := sweepAlgorithmLegacy clock originalBuffer originalSize algorithm })

end Legacy

/-! ## Views that drop the timing values

Timing values come from the ambient wall clock and are excluded from
the determinism and equivalence statements, so a measurement is
"stripped" to its (level, size, ratio) content. -/

/-- A measurement without its timing value. -/
def stripMeasurement (m : Measurement) : Int × Nat × ℚ :=
  (m.level, m.size, m.ratio)

/-- An algorithm result without timing values. -/
def stripAlgorithmResult (r : AlgorithmResult) : String × List (Int × Nat × ℚ) :=
  (r.name, r.measurements.map stripMeasurement)

/-- A file result without timing values: identity, display name,
original size, chart path, and the stripped per-algorithm sweeps. -/
def stripFileResult (r : FileResultR) : String × String × Nat × String ×
    List (String × List (Int × Nat × ℚ)) :=
  (r.id, r.displayName, r.originalSize, r.chartPath,
   r.algorithms.map stripAlgorithmResult)

/-- A Markdown section-header line of the report: the only lines of the
README that open an artifact section are those beginning "## ". -/
def isHeaderLine (line : String) : Bool :=
  line.data.take 3 == "## ".data


/-- A concrete environment in which every path exists, reads are empty,
and rendering succeeds: used to exercise the order-preservation theorem. -/
def envOk : Env :=
  { fsExists := fun _ => true
    readFile := fun _ => []
    packageRoot := fun p => p
    pathRelative := fun _ p => p
    clock := fun _ _ => 0
    renderBuffer := fun _ => Except.ok "svg"
    fmt := fun _ _ => ""
    slug := fun s => s
    timestamp := "now"
    repoRoot := "root" }

/-- Two concrete resolved artifacts, A declared before B. -/
def twoFiles : List ResolvedFile :=
  [ { id := "a", displayName := "A", absolutePath := "root/a.js"
      relativePath := "a.js" },
    { id := "b", displayName := "B", absolutePath := "root/b.js"
      relativePath := "b.js" } ]

/-- The output the driver produces on `twoFiles` in `envOk` with an
empty registry. -/
def twoFilesOut : ProgramOutput :=
  { results :=
      [ { id := "a", displayName := "A", originalSize := 0, algorithms := []
          chartPath := "root/charts/A.svg" },
        { id := "b", displayName := "B", originalSize := 0, algorithms := []
          chartPath := "root/charts/B.svg" } ]
    chartWrites := [("root/charts/A.svg", "svg"), ("root/charts/B.svg", "svg")]
    readme := readmeLines (fun _ _ => "") "now"
      [ { id := "a", displayName := "A", originalSize := 0, algorithms := []
          chartPath := "root/charts/A.svg" },
        { id := "b", displayName := "B", originalSize := 0, algorithms := []
          chartPath := "root/charts/B.svg" } ] }


/-- Claim C7: the algorithm registry contains exactly three entries,
whose declared level ranges are the contiguous integer ranges 1..9,
0..11 and 1..22 respectively. -/
theorem registry_three_entries (gzipSync brotliSync zstdSync : ByteBuf → Int → ByteBuf) :
    (algorithms gzipSync brotliSync zstdSync).length = 3 ∧
    (algorithms gzipSync brotliSync zstdSync).map Algorithm.levels =
      [[1, 2, 3, 4, 5, 6, 7, 8, 9],
       [0, 1, 2, 3, 4, 5, 6, 7, 8, 9, 10, 11],
       [1, 2, 3, 4, 5, 6, 7, 8, 9, 10, 11, 12, 13, 14, 15, 16, 17, 18, 19, 20, 21, 22]] := by
  constructor
  · rfl
  · rfl

/-- Claim C8: for a raw input buffer of 1000 bytes and a stub algorithm
with levels [1, 2, 3] whose compress function returns buffers of lengths
500, 400 and 300 respectively, the sweep yields exactly three
measurements with ratios 0.5, 0.4 and 0.3, in that order. -/
theorem sweep_stub_scenario :
    ((sweepAlgorithm (fun _ _ => 0) (List.replicate 1000 0) (List.replicate 1000 0).length
        { name := "stub"
          levels := [1, 2, 3]
          compress := fun _ level =>
            List.replicate (if level = 1 then 500 else if level = 2 then 400 else 300) 0 }).map
      Measurement.ratio = [(0.5 : ℚ), 0.4, 0.3]) ∧
    (sweepAlgorithm (fun _ _ => 0) (List.replicate 1000 0) (List.replicate 1000 0).length
        { name := "stub"
          levels := [1, 2, 3]
          compress := fun _ level =>
            List.replicate (if level = 1 then 500 else if level = 2 then 400 else 300) 0 }).length = 3 := by
  constructor
  · simp only [sweepAlgorithm, List.map_cons, List.map_nil]
    norm_num [List.length_replicate]
  · rfl

/-- Claim C10: the sweep engine of the superseded script variant and
the sweep engine of the current script variant are equivalent — on the
same input buffer and registry they produce identical sequences of
AlgorithmResults (same names, levels, sizes and ratios in the same
order) — and the two registries agree for the same compression
primitives. -/
theorem legacy_sweep_equivalent (clock : Clock) (originalBuffer : ByteBuf)
    (registry : List Algorithm)
    (gzipSync brotliSync zstdSync : ByteBuf → Int → ByteBuf) :
    Legacy.sweepAllLegacy clock originalBuffer registry =
      sweepAll clock originalBuffer registry ∧
    Legacy.algorithmsLegacy gzipSync brotliSync zstdSync =
      algorithms gzipSync brotliSync zstdSync := by
  exact ⟨rfl, rfl⟩

/-- Claim C1: for every artifact buffer and every algorithm in the
registry, the sweep produces exactly one measurement per declared
level, the measurement count equals the declared level count, there are
no duplicate levels, and the levels appear in strictly ascending order
matching the declared range. -/
theorem sweep_one_measurement_per_level
    (gzipSync brotliSync zstdSync : ByteBuf → Int → ByteBuf) (clock : Clock)
    (originalBuffer : ByteBuf) (algorithm : Algorithm)
    (ha : algorithm ∈ algorithms gzipSync brotliSync zstdSync) :
    (sweepAlgorithm clock originalBuffer originalBuffer.length algorithm).map
        Measurement.level = algorithm.levels ∧
    (sweepAlgorithm clock originalBuffer originalBuffer.length algorithm).length =
      algorithm.levels.length ∧
    ((sweepAlgorithm clock originalBuffer originalBuffer.length algorithm).map
        Measurement.level).Nodup ∧
    List.Pairwise (· < ·)
      ((sweepAlgorithm clock originalBuffer originalBuffer.length algorithm).map
        Measurement.level) := by
  have hmap : (sweepAlgorithm clock originalBuffer originalBuffer.length algorithm).map
      Measurement.level = algorithm.levels := by
    simp only [sweepAlgorithm, List.map_map]
    exact List.map_id algorithm.levels
  have g1 : (arrayFrom 9 (fun index => (index : Int) + 1)).Nodup ∧
      List.Pairwise (· < ·) (arrayFrom 9 (fun index => (index : Int) + 1)) := by decide
  have g2 : (arrayFrom 12 (fun index => (index : Int))).Nodup ∧
      List.Pairwise (· < ·) (arrayFrom 12 (fun index => (index : Int))) := by decide
  have g3 : (arrayFrom 22 (fun index => (index : Int) + 1)).Nodup ∧
      List.Pairwise (· < ·) (arrayFrom 22 (fun index => (index : Int) + 1)) := by decide
  have hlevels : algorithm.levels.Nodup ∧ List.Pairwise (· < ·) algorithm.levels := by
    simp only [algorithms, List.mem_cons, List.not_mem_nil, or_false] at ha
    rcases ha with h | h | h
    · subst h; exact g1
    · subst h; exact g2
    · subst h; exact g3
  refine ⟨hmap, ?_, ?_, ?_⟩
  · simpa using congrArg List.length hmap
  · rw [hmap]; exact hlevels.1
  · rw [hmap]; exact hlevels.2

theorem sweep_one_measurement_per_level_witness :
    ((sweepAlgorithm (fun _ _ => 0) []
        (List.length ([] : ByteBuf))
        { name := "gzip"
          levels := arrayFrom 9 (fun index => (index : Int) + 1)
          compress := fun buffer level => (fun (_ : ByteBuf) (_ : Int) => ([] : ByteBuf)) buffer level }).map
        Measurement.level =
      arrayFrom 9 (fun index => (index : Int) + 1)) := by
  exact (sweep_one_measurement_per_level
    (fun _ _ => []) (fun _ _ => []) (fun _ _ => [])
    (fun _ _ => 0) []
    { name := "gzip"
      levels := arrayFrom 9 (fun index => (index : Int) + 1)
      compress := fun buffer level => (fun (_ : ByteBuf) (_ : Int) => ([] : ByteBuf)) buffer level }
    (List.Mem.head _)).1

/-- Claim C2: every measurement of a sweep has
`ratio = size / originalSize`, with the original size captured once per
artifact as the original buffer's byte length, and `ratio > 0` whenever
the original size is positive (given the interface assumption that the
external compression primitive emits at least one byte). -/
theorem measurement_ratio_correct (clock : Clock) (originalBuffer : ByteBuf)
    (algorithm : Algorithm) (m : Measurement)
    (hm : m ∈ sweepAlgorithm clock originalBuffer originalBuffer.length algorithm)
    (hnonempty : ∀ level, 0 < (algorithm.compress originalBuffer level).length)
    (hpos : 0 < originalBuffer.length) :
    m.ratio = (m.size : ℚ) / (originalBuffer.length : ℚ) ∧ 0 < m.ratio := by
  simp only [sweepAlgorithm, List.mem_map] at hm
  obtain ⟨level, _, rfl⟩ := hm
  refine ⟨rfl, ?_⟩
  have h1 : (0 : ℚ) < ((algorithm.compress originalBuffer level).length : ℚ) := by
    exact_mod_cast hnonempty level
  have h2 : (0 : ℚ) < (originalBuffer.length : ℚ) := by exact_mod_cast hpos
  exact div_pos h1 h2

theorem measurement_ratio_correct_witness :
    ({ level := 1, time := 0, size := 1, ratio := 1 } : Measurement).ratio =
      (({ level := 1, time := 0, size := 1, ratio := 1 } : Measurement).size : ℚ) /
        ((List.length ([7] : ByteBuf)) : ℚ) ∧
    0 < ({ level := 1, time := 0, size := 1, ratio := 1 } : Measurement).ratio := by
  exact measurement_ratio_correct (fun _ _ => 0) [7]
    { name := "stub", levels := [1], compress := fun _ _ => [0] }
    { level := 1, time := 0, size := 1, ratio := 1 }
    (by simp [sweepAlgorithm])
    (fun level => by simp)
    (by simp)

/-- Claim C3: resolution tests candidates in declared order and returns
the first whose concatenated path exists with that candidate's display
name (or the derived default); with two declared candidates of which
only the second exists, resolution returns the second candidate's path
and display name. -/
theorem resolution_first_match (env : Env) (spec : PackageFileSpec)
    (c1 c2 : Candidate)
    (hcands : spec.candidates = some [c1, c2])
    (h1 : env.fsExists
      (resolvePackageFile env.packageRoot spec.packageName c1.pathSegments) = false)
    (h2 : env.fsExists
      (resolvePackageFile env.packageRoot spec.packageName c2.pathSegments) = true) :
    createPackageFile env spec = Except.ok
      { id := spec.id
        displayName := c2.displayName.getD
          (spec.packageName ++ "/" ++ String.intercalate "/" c2.pathSegments)
        absolutePath :=
          resolvePackageFile env.packageRoot spec.packageName c2.pathSegments
        relativePath := env.pathRelative env.repoRoot
          (resolvePackageFile env.packageRoot spec.packageName c2.pathSegments) } := by
  simp [createPackageFile, candidateList, hcands, findFirstExisting, h1, h2]

theorem resolution_first_match_witness :
    createPackageFile
      { fsExists := fun p => p == "root/pkg/b.js"
        readFile := fun _ => []
        packageRoot := fun _ => "root/pkg"
        pathRelative := fun _ p => p
        clock := fun _ _ => 0
        renderBuffer := fun _ => Except.ok ""
        fmt := fun _ _ => ""
        slug := fun s => s
        timestamp := ""
        repoRoot := "root" }
      { id := "art"
        displayName := none
        packageName := "pkg"
        pathSegments := []
        candidates := some [⟨["a.js"], none⟩, ⟨["b.js"], some "pkg b"⟩] } =
    Except.ok
      { id := "art", displayName := "pkg b", absolutePath := "root/pkg/b.js"
        relativePath := "root/pkg/b.js" } := by
  exact resolution_first_match _ _ ⟨["a.js"], none⟩ ⟨["b.js"], some "pkg b"⟩ rfl rfl rfl

/-- Helper: the candidate loop finds nothing when no candidate's path exists. -/
theorem findFirstExisting_eq_none (env : Env) (spec : PackageFileSpec)
    (candidates : List Candidate)
    (h : ∀ c ∈ candidates,
      env.fsExists
        (resolvePackageFile env.packageRoot spec.packageName c.pathSegments) = false) :
    findFirstExisting env spec candidates = none := by
  induction candidates with
  | nil => rfl
  | cons c rest ih =>
    simp only [findFirstExisting, h c (List.mem_cons_self c rest)]
    exact ih (fun d hd => h d (List.mem_cons_of_mem c hd))

/-- Helper: resolution of the artifact list propagates the first failure. -/
theorem resolveFiles_error (env : Env) (pre : List PackageFileSpec)
    (spec : PackageFileSpec) (post : List PackageFileSpec) (e : String)
    (hpre : ∀ s ∈ pre, ∃ f, createPackageFile env s = Except.ok f)
    (hspec : createPackageFile env spec = Except.error e) :
    resolveFiles env (pre ++ spec :: post) = Except.error e := by
  induction pre with
  | nil => simp [resolveFiles, hspec]
  | cons s rest ih =>
    obtain ⟨f, hf⟩ := hpre s (List.mem_cons_self s rest)
    have htail := ih (fun t ht => hpre t (List.mem_cons_of_mem s ht))
    simp [resolveFiles, hf, htail]

/-- Claim C4: when no candidate path exists for a declared artifact,
resolution fails with an error message reporting every attempted path,
the failure is fatal to the run (the whole program returns that error
and no report output is produced), and the process exit status is
non-zero. -/
theorem artifact_not_found_aborts (env : Env) (registry : List Algorithm)
    (pre : List PackageFileSpec) (spec : PackageFileSpec)
    (post : List PackageFileSpec)
    (hpre : ∀ s ∈ pre, ∃ f, createPackageFile env s = Except.ok f)
    (hnone : ∀ c ∈ candidateList spec,
      env.fsExists
        (resolvePackageFile env.packageRoot spec.packageName c.pathSegments) = false) :
    createPackageFile env spec = Except.error
      ("Required file not found for " ++ spec.packageName ++ ". Tried: " ++
        String.intercalate ", " ((candidateList spec).map
          (fun c => pathJoin (spec.packageName :: c.pathSegments)))) ∧
    runProgram env registry (pre ++ spec :: post) = Except.error
      ("Required file not found for " ++ spec.packageName ++ ". Tried: " ++
        String.intercalate ", " ((candidateList spec).map
          (fun c => pathJoin (spec.packageName :: c.pathSegments)))) ∧
    exitCode (runProgram env registry (pre ++ spec :: post)) = 1 := by
  have herr : createPackageFile env spec = Except.error
      ("Required file not found for " ++ spec.packageName ++ ". Tried: " ++
        String.intercalate ", " ((candidateList spec).map
          (fun c => pathJoin (spec.packageName :: c.pathSegments)))) := by
    unfold createPackageFile
    rw [findFirstExisting_eq_none env spec _ hnone]
  have hrun : runProgram env registry (pre ++ spec :: post) = Except.error
      ("Required file not found for " ++ spec.packageName ++ ". Tried: " ++
        String.intercalate ", " ((candidateList spec).map
          (fun c => pathJoin (spec.packageName :: c.pathSegments)))) := by
    unfold runProgram
    rw [resolveFiles_error env pre spec post _ hpre herr]
  exact ⟨herr, hrun, by rw [hrun]; rfl⟩

theorem artifact_not_found_aborts_witness :
    createPackageFile
      { fsExists := fun _ => false
        readFile := fun _ => []
        packageRoot := fun _ => "root/pkg"
        pathRelative := fun _ p => p
        clock := fun _ _ => 0
        renderBuffer := fun _ => Except.ok ""
        fmt := fun _ _ => ""
        slug := fun s => s
        timestamp := ""
        repoRoot := "root" }
      { id := "art"
        displayName := none
        packageName := "pkg"
        pathSegments := []
        candidates := some [⟨["a.js"], none⟩, ⟨["b.js"], none⟩] } =
      Except.error "Required file not found for pkg. Tried: pkg/a.js, pkg/b.js" ∧
    runProgram
      { fsExists := fun _ => false
        readFile := fun _ => []
        packageRoot := fun _ => "root/pkg"
        pathRelative := fun _ p => p
        clock := fun _ _ => 0
        renderBuffer := fun _ => Except.ok ""
        fmt := fun _ _ => ""
        slug := fun s => s
        timestamp := ""
        repoRoot := "root" } []
      [{ id := "art"
         displayName := none
         packageName := "pkg"
         pathSegments := []
         candidates := some [⟨["a.js"], none⟩, ⟨["b.js"], none⟩] }] =
      Except.error "Required file not found for pkg. Tried: pkg/a.js, pkg/b.js" ∧
    exitCode (runProgram
      { fsExists := fun _ => false
        readFile := fun _ => []
        packageRoot := fun _ => "root/pkg"
        pathRelative := fun _ p => p
        clock := fun _ _ => 0
        renderBuffer := fun _ => Except.ok ""
        fmt := fun _ _ => ""
        slug := fun s => s
        timestamp := ""
        repoRoot := "root" } []
      [{ id := "art"
         displayName := none
         packageName := "pkg"
         pathSegments := []
         candidates := some [⟨["a.js"], none⟩, ⟨["b.js"], none⟩] }]) = 1 := by
  exact artifact_not_found_aborts _ [] [] _ []
    (by simp)
    (by intro c hc; rfl)

/-- Helper: the driver loop propagates the first per-file failure,
whatever files follow. -/
theorem runFiles_error (env : Env) (registry : List Algorithm)
    (pre : List ResolvedFile) (file : ResolvedFile) (post : List ResolvedFile)
    (e : String)
    (hpre : ∀ f ∈ pre, ∃ r, processFile env registry f = Except.ok r)
    (hfile : processFile env registry file = Except.error e) :
    runFiles env registry (pre ++ file :: post) = Except.error e := by
  induction pre with
  | nil => simp [runFiles, hfile]
  | cons f rest ih =>
    obtain ⟨r, hr⟩ := hpre f (List.mem_cons_self f rest)
    have htail := ih (fun g hg => hpre g (List.mem_cons_of_mem f hg))
    simp [runFiles, hr, htail]

/-- Claim C5: if the chart renderer fails for any single artifact, the
error propagates: the run's result is exactly that error whatever
artifacts follow (no skip-and-continue), no report is produced, and the
process exit status is non-zero. -/
theorem render_failure_fatal (env : Env) (registry : List Algorithm)
    (pre : List ResolvedFile) (file : ResolvedFile) (post : List ResolvedFile)
    (e : String)
    (hpre : ∀ f ∈ pre, ∃ r, processFile env registry f = Except.ok r)
    (hexists : env.fsExists file.absolutePath = true)
    (hrender : generateChart env (mkFileResult env registry file) = Except.error e) :
    runMain env registry (pre ++ file :: post) = Except.error e ∧
    exitCode (runMain env registry (pre ++ file :: post)) = 1 := by
  have hfile : processFile env registry file = Except.error e := by
    simp [processFile, hexists, hrender]
  have hrun : runMain env registry (pre ++ file :: post) = Except.error e := by
    unfold runMain
    rw [runFiles_error env registry pre file post e hpre hfile]
  exact ⟨hrun, by rw [hrun]; rfl⟩

theorem render_failure_fatal_witness :
    runMain
      { fsExists := fun _ => true
        readFile := fun _ => []
        packageRoot := fun p => p
        pathRelative := fun _ p => p
        clock := fun _ _ => 0
        renderBuffer := fun _ => Except.error "render failed"
        fmt := fun _ _ => ""
        slug := fun s => s
        timestamp := ""
        repoRoot := "root" } []
      [{ id := "a", displayName := "A", absolutePath := "root/a.js"
         relativePath := "a.js" },
       { id := "b", displayName := "B", absolutePath := "root/b.js"
         relativePath := "b.js" }] = Except.error "render failed" ∧
    exitCode (runMain
      { fsExists := fun _ => true
        readFile := fun _ => []
        packageRoot := fun p => p
        pathRelative := fun _ p => p
        clock := fun _ _ => 0
        renderBuffer := fun _ => Except.error "render failed"
        fmt := fun _ _ => ""
        slug := fun s => s
        timestamp := ""
        repoRoot := "root" } []
      [{ id := "a", displayName := "A", absolutePath := "root/a.js"
         relativePath := "a.js" },
       { id := "b", displayName := "B", absolutePath := "root/b.js"
         relativePath := "b.js" }]) = 1 := by
  exact render_failure_fatal _ [] []
    { id := "a", displayName := "A", absolutePath := "root/a.js"
      relativePath := "a.js" }
    [{ id := "b", displayName := "B", absolutePath := "root/b.js"
       relativePath := "b.js" }] "render failed"
    (by simp) rfl rfl

theorem isHeaderLine_section_head (s : String) :
    isHeaderLine ("## " ++ s) = true := rfl

theorem isHeaderLine_empty : isHeaderLine "" = false := rfl

theorem isHeaderLine_size_line (t u : String) :
    isHeaderLine ("- Original size: " ++ t ++ u) = false := rfl

theorem isHeaderLine_chart_line (t u v w : String) :
    isHeaderLine ("- Chart: ![Compression ratio chart for " ++ t ++ u ++ v ++ w) =
      false := rfl

theorem isHeaderLine_table_head :
    isHeaderLine "| Algorithm | Level | Time (ms) | Size (bytes) | Compression Ratio |" =
      false := rfl

theorem isHeaderLine_table_sep : isHeaderLine "| --- | --- | --- | --- | --- |" = false := rfl

theorem isHeaderLine_row (a b c d e : String) :
    isHeaderLine ("| " ++ a ++ " | " ++ b ++ " | " ++ c ++ " | " ++ d ++ " | " ++
      e ++ " |") = false := rfl

theorem isHeaderLine_title : isHeaderLine "# Node Compression Benchmark" = false := rfl

theorem isHeaderLine_updated (t : String) :
    isHeaderLine ("Last updated: " ++ t) = false := rfl

theorem isHeaderLine_blurb :
    isHeaderLine "This benchmark measures compression time, output size, and compression ratios for several popular npm packages across all gzip, Brotli, and Zstandard compression levels." = false := rfl

/-- Helper: filtering one report section for header lines leaves exactly
its own header. -/
theorem sectionLines_filter (fmt : ℚ → Nat → String) (r : FileResultR) :
    (sectionLines fmt r).filter isHeaderLine = ["## " ++ r.displayName] := by
  have hrows : (r.algorithms.flatMap (fun algorithm =>
      algorithm.measurements.map (fun measurement =>
        "| " ++ algorithm.name ++ " | " ++ toString measurement.level ++ " | " ++
        fmt measurement.time 3 ++ " | " ++ toString measurement.size ++ " | " ++
        fmt measurement.ratio 4 ++ " |"))).filter isHeaderLine = [] := by
    rw [List.filter_eq_nil_iff]
    intro a ha
    simp only [List.mem_flatMap, List.mem_map] at ha
    obtain ⟨alg, _, m, _, rfl⟩ := ha
    simp [isHeaderLine_row]
  simp [sectionLines, List.filter_append, hrows, isHeaderLine_section_head,
    isHeaderLine_empty, isHeaderLine_size_line, isHeaderLine_chart_line,
    isHeaderLine_table_head, isHeaderLine_table_sep]

/-- Helper: filtering the whole README for header lines gives exactly
one header per file result, in order. -/
theorem readmeLines_filter (fmt : ℚ → Nat → String) (timestamp : String)
    (results : List FileResultR) :
    (readmeLines fmt timestamp results).filter isHeaderLine =
      results.map (fun r => "## " ++ r.displayName) := by
  have hflat : (results.flatMap (sectionLines fmt)).filter isHeaderLine =
      results.map (fun r => "## " ++ r.displayName) := by
    induction results with
    | nil => rfl
    | cons r rest ih =>
      simp only [List.flatMap_cons, List.filter_append, sectionLines_filter, ih,
        List.map_cons]
      rfl
  simp [readmeLines, List.filter_append, hflat, isHeaderLine_title,
    isHeaderLine_empty, isHeaderLine_updated, isHeaderLine_blurb]

/-- Helper: a successful per-file step keeps the file's identity and
display name. -/
theorem processFile_ok (env : Env) (registry : List Algorithm)
    (file : ResolvedFile) (r : FileResultR) (w : String × String)
    (h : processFile env registry file = Except.ok (r, w)) :
    r.id = file.id ∧ r.displayName = file.displayName := by
  unfold processFile at h
  split at h
  · cases hg : generateChart env (mkFileResult env registry file) with
    | error e => simp [hg] at h
    | ok svg =>
      simp only [hg, Except.ok.injEq, Prod.mk.injEq] at h
      obtain ⟨hr, -⟩ := h
      subst hr
      exact ⟨rfl, rfl⟩
  · exact absurd h (by simp)

/-- Helper: a successful driver loop yields one result per file, with
identities and display names in declaration order. -/
theorem runFiles_ok (env : Env) (registry : List Algorithm)
    (files : List ResolvedFile) (results : List FileResultR)
    (writes : List (String × String))
    (h : runFiles env registry files = Except.ok (results, writes)) :
    results.length = files.length ∧
    results.map (fun r => r.id) = files.map ResolvedFile.id ∧
    results.map (fun r => r.displayName) = files.map ResolvedFile.displayName := by
  induction files generalizing results writes with
  | nil =>
    simp only [runFiles, Except.ok.injEq, Prod.mk.injEq] at h
    obtain ⟨hr, -⟩ := h
    subst hr
    exact ⟨rfl, rfl, rfl⟩
  | cons f rest ih =>
    unfold runFiles at h
    cases hp : processFile env registry f with
    | error e => rw [hp] at h; exact absurd h (by simp)
    | ok rw0 =>
      obtain ⟨r, w⟩ := rw0
      rw [hp] at h
      cases ht : runFiles env registry rest with
      | error e => rw [ht] at h; exact absurd h (by simp)
      | ok rsws =>
        obtain ⟨rs, ws⟩ := rsws
        rw [ht] at h
        simp only [Except.ok.injEq, Prod.mk.injEq] at h
        obtain ⟨hr, -⟩ := h
        subst hr
        obtain ⟨hid, hdn⟩ := processFile_ok env registry f r w hp
        obtain ⟨hl, hids, hdns⟩ := ih rs ws ht
        refine ⟨by simp [hl], by simp [hid, hids], by simp [hdn, hdns]⟩

/-- Claim C6: a successful run over N artifacts produces exactly N file
results, in the static declaration order of the artifact list, and the
report contains exactly one section header per artifact in that same
order. -/
theorem report_preserves_declaration_order (env : Env)
    (registry : List Algorithm) (files : List ResolvedFile)
    (out : ProgramOutput) (h : runMain env registry files = Except.ok out) :
    out.results.length = files.length ∧
    out.results.map (fun r => r.id) = files.map ResolvedFile.id ∧
    out.readme.filter isHeaderLine =
      out.results.map (fun r => "## " ++ r.displayName) := by
  unfold runMain at h
  cases hrf : runFiles env registry files with
  | error e => rw [hrf] at h; exact absurd h (by simp)
  | ok rsws =>
    obtain ⟨rs, ws⟩ := rsws
    rw [hrf] at h
    simp only [Except.ok.injEq] at h
    subst h
    obtain ⟨hl, hids, -⟩ := runFiles_ok env registry files rs ws hrf
    exact ⟨hl, hids, readmeLines_filter env.fmt env.timestamp rs⟩

theorem report_preserves_declaration_order_witness :
    twoFilesOut.results.length = twoFiles.length ∧
    twoFilesOut.results.map (fun r => r.id) = twoFiles.map ResolvedFile.id ∧
    twoFilesOut.readme.filter isHeaderLine =
      twoFilesOut.results.map (fun r => "## " ++ r.displayName) := by
  exact report_preserves_declaration_order envOk [] twoFiles twoFilesOut rfl

/-- Helper: the candidate loop never consults the clock. -/
theorem findFirstExisting_clock (env : Env) (c : Clock)
    (spec : PackageFileSpec) (candidates : List Candidate) :
    findFirstExisting { env with clock := c } spec candidates =
      findFirstExisting env spec candidates := by
  induction candidates with
  | nil => rfl
  | cons cand rest ih => simp only [findFirstExisting, ih]

/-- Helper: resolution never consults the clock. -/
theorem createPackageFile_clock (env : Env) (c : Clock)
    (spec : PackageFileSpec) :
    createPackageFile { env with clock := c } spec = createPackageFile env spec := by
  unfold createPackageFile
  rw [findFirstExisting_clock]

/-- Helper: resolving the artifact list never consults the clock. -/
theorem resolveFiles_clock (env : Env) (c : Clock)
    (specs : List PackageFileSpec) :
    resolveFiles { env with clock := c } specs = resolveFiles env specs := by
  induction specs with
  | nil => rfl
  | cons spec rest ih => simp only [resolveFiles, createPackageFile_clock, ih]

/-- Helper: stripped of timing, a sweep does not depend on the clock. -/
theorem sweepAlgorithm_strip_clock (c1 c2 : Clock) (originalBuffer : ByteBuf)
    (originalSize : Nat) (algorithm : Algorithm) :
    (sweepAlgorithm c1 originalBuffer originalSize algorithm).map stripMeasurement =
      (sweepAlgorithm c2 originalBuffer originalSize algorithm).map stripMeasurement := by
  simp only [sweepAlgorithm, List.map_map]
  rfl

/-- Helper: the (level, ratio) chart points do not depend on the clock. -/
theorem sweepAlgorithm_points_clock (c1 c2 : Clock) (originalBuffer : ByteBuf)
    (originalSize : Nat) (algorithm : Algorithm) :
    (sweepAlgorithm c1 originalBuffer originalSize algorithm).map
        (fun m => (m.level, m.ratio)) =
      (sweepAlgorithm c2 originalBuffer originalSize algorithm).map
        (fun m => (m.level, m.ratio)) := by
  simp only [sweepAlgorithm, List.map_map]
  rfl

/-- Helper: stripped of timing, the whole sweep does not depend on the
clock. -/
theorem sweepAll_strip_clock (c1 c2 : Clock) (originalBuffer : ByteBuf)
    (registry : List Algorithm) :
    (sweepAll c1 originalBuffer registry).map stripAlgorithmResult =
      (sweepAll c2 originalBuffer registry).map stripAlgorithmResult := by
  simp only [sweepAll, List.map_map]
  refine List.map_congr_left ?_
  intro a _
  exact congrArg (fun l => (a.name, l))
    (sweepAlgorithm_strip_clock c1 c2 originalBuffer originalBuffer.length a)

/-- Helper: the chart handed to the renderer does not depend on the
clock, because only (level, ratio) points and names enter the
configuration. -/
theorem generateChart_clock (env : Env) (c : Clock)
    (registry : List Algorithm) (file : ResolvedFile) :
    generateChart { env with clock := c }
        (mkFileResult { env with clock := c } registry file) =
      generateChart env (mkFileResult env registry file) := by
  unfold generateChart mkFileResult
  refine congrArg env.renderBuffer ?_
  refine congrArg (fun d => ChartConfig.mk d (file.displayName ++ " Compression Ratio")) ?_
  simp only [sweepAll, List.map_map]
  refine List.map_congr_left ?_
  intro a _
  exact congrArg (fun l => (a.name.toUpper, l))
    (sweepAlgorithm_points_clock c env.clock (env.readFile file.absolutePath)
      (env.readFile file.absolutePath).length a)

/-- Helper: stripped of timing, one driver step does not depend on the
clock. -/
theorem processFile_strip_clock (env : Env) (c : Clock)
    (registry : List Algorithm) (file : ResolvedFile) :
    (processFile { env with clock := c } registry file).map
        (fun p => (stripFileResult p.1, p.2)) =
      (processFile env registry file).map
        (fun p => (stripFileResult p.1, p.2)) := by
  unfold processFile
  by_cases hex : env.fsExists file.absolutePath
  · simp only [hex, if_true]
    rw [generateChart_clock]
    cases hg : generateChart env (mkFileResult env registry file) with
    | error e => simp [hg]
    | ok svg =>
      simp only [hg, Except.map]
      refine congrArg Except.ok ?_
      refine congrArg (fun q => (q, chartsDir env.repoRoot ++ "/" ++
        env.slug file.displayName ++ ".svg", svg)) ?_
      unfold stripFileResult mkFileResult
      simp only []
      exact congrArg (fun l => (file.id, file.displayName,
        (env.readFile file.absolutePath).length,
        env.pathRelative env.repoRoot (chartsDir env.repoRoot ++ "/" ++
          env.slug file.displayName ++ ".svg"), l))
        (sweepAll_strip_clock c env.clock (env.readFile file.absolutePath) registry)
  · simp only [hex, if_false]
    rfl

/-- Helper: stripped of timing, the whole driver loop does not depend
on the clock. -/
theorem runFiles_strip_clock (env : Env) (c : Clock) (registry : List Algorithm) :
    ∀ files : List ResolvedFile,
    (runFiles { env with clock := c } registry files).map
        (fun p => (p.1.map stripFileResult, p.2)) =
      (runFiles env registry files).map
        (fun p => (p.1.map stripFileResult, p.2))
  | [] => rfl
  | file :: rest => by
    have hpf := processFile_strip_clock env c registry file
    have hrec := runFiles_strip_clock env c registry rest
    cases h1 : processFile env registry file with
    | error e =>
      rw [h1] at hpf
      cases h2 : processFile { env with clock := c } registry file with
      | error e2 =>
        rw [h2] at hpf
        simp only [Except.map, Except.error.injEq] at hpf
        subst hpf
        simp [runFiles, h1, h2, Except.map]
      | ok p2 =>
        rw [h2] at hpf
        simp [Except.map] at hpf
    | ok p =>
      obtain ⟨r, w⟩ := p
      rw [h1] at hpf
      cases h2 : processFile { env with clock := c } registry file with
      | error e2 =>
        rw [h2] at hpf
        simp [Except.map] at hpf
      | ok p2 =>
        obtain ⟨r2, w2⟩ := p2
        rw [h2] at hpf
        simp only [Except.map, Except.ok.injEq, Prod.mk.injEq] at hpf
        obtain ⟨hr, hw⟩ := hpf
        subst hw
        cases h3 : runFiles env registry rest with
        | error e =>
          rw [h3] at hrec
          cases h4 : runFiles { env with clock := c } registry rest with
          | error e4 =>
            rw [h4] at hrec
            simp only [Except.map, Except.error.injEq] at hrec
            subst hrec
            simp [runFiles, h1, h2, h3, h4, Except.map]
          | ok q4 =>
            rw [h4] at hrec
            simp [Except.map] at hrec
        | ok q =>
          obtain ⟨rs, ws⟩ := q
          rw [h3] at hrec
          cases h4 : runFiles { env with clock := c } registry rest with
          | error e4 =>
            rw [h4] at hrec
            simp [Except.map] at hrec
          | ok q4 =>
            obtain ⟨rs4, ws4⟩ := q4
            rw [h4] at hrec
            simp only [Except.map, Except.ok.injEq, Prod.mk.injEq] at hrec
            obtain ⟨hrs, hws⟩ := hrec
            subst hws
            simp only [runFiles, h1, h2, h3, h4, Except.map, List.map_cons,
              Except.ok.injEq, Prod.mk.injEq]
            exact ⟨by rw [hr, hrs], trivial⟩

/-- Claim C9: the pipeline is deterministic modulo timing — resolving
the same artifact spec under the same filesystem state yields the same
result whatever the clock, and re-running the whole pipeline against
unchanged inputs with a different clock reproduces identical
measurement size and ratio values. -/
theorem pipeline_deterministic_modulo_timing (env : Env) (c : Clock)
    (registry : List Algorithm) (specs : List PackageFileSpec)
    (spec : PackageFileSpec) :
    createPackageFile { env with clock := c } spec = createPackageFile env spec ∧
    (runProgram { env with clock := c } registry specs).map
        (fun out => out.results.map stripFileResult) =
      (runProgram env registry specs).map
        (fun out => out.results.map stripFileResult) := by
  refine ⟨createPackageFile_clock env c spec, ?_⟩
  unfold runProgram
  rw [resolveFiles_clock]
  cases hres : resolveFiles env specs with
  | error e => simp [Except.map]
  | ok files =>
    have h := runFiles_strip_clock env c registry files
    unfold runMain
    cases h1 : runFiles env registry files with
    | error e =>
      rw [h1] at h
      cases h2 : runFiles { env with clock := c } registry files with
      | error e2 =>
        rw [h2] at h
        simp only [Except.map, Except.error.injEq] at h
        subst h
        simp [Except.map, h1, h2]
      | ok q2 =>
        rw [h2] at h
        simp [Except.map] at h
    | ok q =>
      obtain ⟨rs, ws⟩ := q
      rw [h1] at h
      cases h2 : runFiles { env with clock := c } registry files with
      | error e2 =>
        rw [h2] at h
        simp [Except.map] at h
      | ok q2 =>
        obtain ⟨rs2, ws2⟩ := q2
        rw [h2] at h
        simp only [Except.map, Except.ok.injEq, Prod.mk.injEq] at h
        obtain ⟨hrs, -⟩ := h
        simp only [h1, h2, Except.map, Except.ok.injEq]
        exact hrs
